/-
Verification of the lol-analyzer LLM pipeline (app/analysis/llm.py and
app/dashboard/routes.py) against its natural-language specification.

The Python modules are shallowly embedded: pure helpers become Lean
functions over `List Char` / `String` / `ℚ` / `ℤ`; the network is an
explicit oracle (a list of responses consumed in order); the retry loops
become structural recursions on the remaining attempt budget.  Python
floats are modelled as exact rationals, and Python `round(x, 2)` as
round-half-to-even on rationals.
-/

import Mathlib

namespace LolAnalyzer

/-! ### Basic Python string primitives -/

/-- Python `str.isspace` characters (ASCII range), as used by `str.strip`
and the regex class `\s`. -/
def pyIsSpace (c : Char) : Bool :=
  c = ' ' || c = '\t' || c = '\n' || c = '\r' || c = '\x0b' || c = '\x0c'

/-- Python `str.strip()` on a character list. -/
def pyStripList (cs : List Char) : List Char :=
  ((cs.dropWhile pyIsSpace).reverse.dropWhile pyIsSpace).reverse

/-- Python `str.strip()`. -/
def pyStrip (s : String) : String := ⟨pyStripList s.data⟩

/-- Python `str.lower()` (ASCII letters; the source only compares ASCII). -/
def lowerStr (s : String) : String := ⟨s.data.map Char.toLower⟩

/-- Boolean list-prefix test. -/
def isPrefixL : List Char → List Char → Bool
  | [], _ => true
  | _ :: _, [] => false
  | p :: ps, c :: cs => p = c && isPrefixL ps cs

/-- Whether `pat` occurs as a contiguous infix of the list. -/
def hasInfix (pat : List Char) : List Char → Bool
  | [] => isPrefixL pat []
  | c :: rest => isPrefixL pat (c :: rest) || hasInfix pat rest

/-- Python `pat in s` substring containment. -/
def containsSubstring (s pat : String) : Bool := hasInfix pat.data s.data

/-- Python `s.startswith(pre)`. -/
def startsWithStr (s pre : String) : Bool := isPrefixL pre.data s.data

/-- Python `s.endswith(suf)`. -/
def endsWithStr (s suf : String) : Bool := isPrefixL suf.data.reverse s.data.reverse

/-- `_normalize_text`: `re.sub(r'[^a-z0-9]+', '', value.lower())` — lowercase
and keep only `[a-z0-9]`. -/
def normalizeText (s : String) : String :=
  ⟨(lowerStr s).data.filter (fun c => (decide ('a' ≤ c) && decide (c ≤ 'z')) || c.isDigit)⟩

/-! ### `_soft_text_clean` and its regex passes -/

/-- `value.replace('\r\n', '\n').replace('\r', '\n')` in one pass. -/
def normalizeNewlines : List Char → List Char
  | [] => []
  | '\r' :: '\n' :: rest => '\n' :: normalizeNewlines rest
  | '\r' :: rest => '\n' :: normalizeNewlines rest
  | c :: rest => c :: normalizeNewlines rest

/-- `re.sub(r'<[^>]+>', '', text)` as a state machine: `none` = outside a
candidate tag, `some buf` = after an unmatched `<` with `buf` the chars read
since it (reversed).  `<>` does not match (the class is `+`), and an
unterminated `<...` is kept literally. -/
def stripTagsGo : Option (List Char) → List Char → List Char
  | none, [] => []
  | none, c :: rest =>
      if c = '<' then stripTagsGo (some []) rest else c :: stripTagsGo none rest
  | some buf, [] => '<' :: buf.reverse
  | some buf, c :: rest =>
      if c = '>' then
        if buf.isEmpty then '<' :: '>' :: stripTagsGo none rest
        else stripTagsGo none rest
      else stripTagsGo (some (c :: buf)) rest

/-- The regex class `[a-zA-Z0-9_-]` of the fence-opener pattern. -/
def isFenceWordChar (c : Char) : Bool :=
  c.isAlpha || c.isDigit || c = '_' || c = '-'

/-- Length of the leftmost match of `^```[a-zA-Z0-9_-]*\s*\n` at the head of
`cs` (a line-start position), if any.  The greedy `\s*` before `\n`
backtracks to the last newline of the maximal whitespace run. -/
def tryFenceOpen (cs : List Char) : Option Nat :=
  if cs.take 3 = "```".data then
    let afterTicks := cs.drop 3
    let word := afterTicks.takeWhile isFenceWordChar
    let afterWord := afterTicks.drop word.length
    let run := afterWord.takeWhile pyIsSpace
    let tailNoNl := (run.reverse.takeWhile (fun c => c ≠ '\n')).length
    if tailNoNl = run.length then none
    else some (3 + word.length + (run.length - tailNoNl))
  else none

/-- Scanner for `re.sub(r'^```[a-zA-Z0-9_-]*\s*\n', '', text, flags=MULTILINE)`:
at each line-start position try the pattern and drop the match.  `fuel`
bounds the recursion; it is called with `length + 1`, and every step
consumes at least one character, so the bound is never reached. -/
def fenceOpenGo : Nat → Bool → List Char → List Char
  | 0, _, cs => cs
  | _ + 1, _, [] => []
  | fuel + 1, atStart, c :: rest =>
      if atStart then
        match tryFenceOpen (c :: rest) with
        | some n => fenceOpenGo fuel true ((c :: rest).drop n)
        | none => c :: fenceOpenGo fuel (c = '\n') rest
      else c :: fenceOpenGo fuel (c = '\n') rest

/-- Length of the leftmost match of `^```\s*$` (MULTILINE) at the head of
`cs`, if any: either `\s*` reaches the end of the string, or the greedy
`\s*` backtracks so that `$` sits just before the last newline of the
whitespace run (the newline itself is not consumed). -/
def tryFenceClose (cs : List Char) : Option Nat :=
  if cs.take 3 = "```".data then
    let afterTicks := cs.drop 3
    let run := afterTicks.takeWhile pyIsSpace
    if run.length = afterTicks.length then some cs.length
    else
      let tailNoNl := (run.reverse.takeWhile (fun c => c ≠ '\n')).length
      if tailNoNl = run.length then none
      else some (3 + (run.length - tailNoNl) - 1)
  else none

/-- Scanner for `re.sub(r'^```\s*$', '', text, flags=MULTILINE)`.  A match
ends just before a newline (which then re-establishes a line start), so
scanning resumes in mid-line position. -/
def fenceCloseGo : Nat → Bool → List Char → List Char
  | 0, _, cs => cs
  | _ + 1, _, [] => []
  | fuel + 1, atStart, c :: rest =>
      if atStart then
        match tryFenceClose (c :: rest) with
        | some n => fenceCloseGo fuel false ((c :: rest).drop n)
        | none => c :: fenceCloseGo fuel (c = '\n') rest
      else c :: fenceCloseGo fuel (c = '\n') rest

/-- `re.sub(r'\n{3,}', '\n\n', text)`: collapse runs of three or more
newlines to exactly two. -/
def collapseGo : Nat → List Char → List Char
  | 0, cs => cs
  | _ + 1, [] => []
  | fuel + 1, c :: rest =>
      if c = '\n' then
        let run := rest.takeWhile (fun d => d = '\n')
        (if run.length + 1 ≥ 3 then ['\n', '\n'] else List.replicate (run.length + 1) '\n')
          ++ collapseGo fuel (rest.drop run.length)
      else c :: collapseGo fuel rest

/-- `_soft_text_clean`: normalize newlines, strip, strip HTML-looking tags,
remove fenced-code markers, collapse blank lines, strip again. -/
def softTextClean (value : String) : String :=
  let text := pyStripList (normalizeNewlines value.data)
  if text.isEmpty then ""
  else
    let text := stripTagsGo none text
    let text := fenceOpenGo (text.length + 1) true text
    let text := fenceCloseGo (text.length + 1) true text
    let text := collapseGo (text.length + 1) text
    ⟨pyStripList text⟩

/-! ### Numeric helpers (`_clamp`, `_safe_ratio`, Python `round(x, 2)`) -/

/-- `_clamp(value, minimum, maximum) = max(minimum, min(maximum, value))`. -/
def clampZ (value minimum maximum : ℤ) : ℤ := max minimum (min maximum value)

/-- `_safe_ratio`: `numerator / denominator if denominator else 0.0`. -/
def safeRatio (numerator denominator : ℚ) : ℚ :=
  if denominator = 0 then 0 else numerator / denominator

/-- Python `round` to an integer: round half to even (floats are modelled as
exact rationals, so representation error is out of scope). -/
def roundHalfEven (x : ℚ) : ℤ :=
  let f := ⌊x⌋
  if x - f < mkRat 1 2 then f
  else if mkRat 1 2 < x - f then f + 1
  else if f % 2 = 0 then f else f + 1

/-- Python `round(x, 2)`. -/
def round2 (x : ℚ) : ℚ := (roundHalfEven (x * 100) : ℚ) / 100

/-! ### Participant stat blocks and per-minute metrics -/

/-- One entry of the `participants` list (`dict.get` defaults of `0` / `''`
are baked into the field types). -/
structure Participant where
  kills : ℕ
  deaths : ℕ
  assists : ℕ
  goldEarned : ℕ
  totalDamage : ℕ
  cs : ℕ
  visionScore : ℕ
  isPlayer : Bool
  teamId : ℕ
  champion : String
  position : String
  summonerId : String
deriving DecidableEq, Repr

/-- The denominator used by `_participant_kda`: `max(1, deaths)`. -/
def kdaDenominator (p : Participant) : ℕ := max 1 p.deaths

/-- `_participant_kda(participant)`. -/
def participantKda (p : Participant) : ℚ :=
  round2 (safeRatio ((p.kills : ℚ) + (p.assists : ℚ)) (kdaDenominator p : ℚ))

/-- The lane-opponent KDA computed inline in
`_build_relative_performance_context`:
`round(_safe_ratio(kills + assists, max(1, deaths)), 2)`. -/
def laneOpponentKda (laneOpp : Participant) : ℚ :=
  round2 (safeRatio ((laneOpp.kills : ℚ) + (laneOpp.assists : ℚ)) ((max 1 laneOpp.deaths : ℕ) : ℚ))

/-- Per-minute metrics of `_participant_metrics`. -/
structure ParticipantMetrics where
  kda : ℚ
  gpm : ℚ
  dpm : ℚ
  cspm : ℚ
  vpm : ℚ
deriving DecidableEq, Repr

/-- `_participant_metrics(participant, duration_minutes)`. -/
def participantMetrics (p : Participant) (durationMinutes : ℚ) : ParticipantMetrics where
  kda := participantKda p
  gpm := round2 (safeRatio (p.goldEarned : ℚ) durationMinutes)
  dpm := round2 (safeRatio (p.totalDamage : ℚ) durationMinutes)
  cspm := round2 (safeRatio (p.cs : ℚ) durationMinutes)
  vpm := round2 (safeRatio (p.visionScore : ℚ) durationMinutes)

/-! ### Champion phase profile (`_phase_label`, `_champion_phase_profile`) -/

/-- Champion base stats from the Data Dragon record (`champion['stats']`,
each read with a `0.0` default). -/
structure ChampStats where
  hp : ℚ
  hpperlevel : ℚ
  attackdamage : ℚ
  attackdamageperlevel : ℚ
  armor : ℚ
  armorperlevel : ℚ
  spellblock : ℚ
  spellblockperlevel : ℚ
deriving DecidableEq, Repr

/-- A Data Dragon champion record (the fields `_champion_phase_profile`
reads). -/
structure Champion where
  name : String
  id : String
  tags : List String
  stats : ChampStats
deriving DecidableEq, Repr

/-- A `champion_phase_overrides` entry that is a dict (each label read with
an `'average'` default, notes with `''`). -/
structure PhaseOverride where
  early : Option String
  mid : Option String
  late : Option String
  notes : Option String
deriving DecidableEq, Repr

/-- A value of the overrides mapping: only dict values are honoured
(`isinstance(override, dict)`); anything else falls through to the
heuristic. -/
inductive OverrideVal where
  | dict (o : PhaseOverride)
  | nonDict
deriving DecidableEq, Repr

/-- Python `dict.get` over the overrides mapping. -/
def lookupOverride (overrides : List (String × OverrideVal)) (key : String) : Option OverrideVal :=
  match overrides with
  | [] => none
  | (k, v) :: rest => if k = key then some v else lookupOverride rest key

/-- `_phase_label`: `{0: 'weak', 1: 'average', 2: 'strong'}.get(level, 'average')`. -/
def phaseLabel (level : ℤ) : String :=
  if level = 0 then "weak"
  else if level = 1 then "average"
  else if level = 2 then "strong"
  else "average"

/-- `champion.get('name') or champion.get('id', '')`. -/
def championDisplayName (c : Champion) : String :=
  if c.name = "" then c.id else c.name

/-- The tag-derived `(early, mid, late)` levels of the heuristic branch,
before the growth-ratio adjustment: each starts at `1` and the declared
tags shift it (`Marksman`, `Assassin`, `Mage`, `Tank`, `Support`,
`Fighter`). -/
def tagLevels (tags : List String) : ℤ × ℤ × ℤ :=
  let early : ℤ := 1
    + (if tags.contains "Marksman" then -1 else 0)
    + (if tags.contains "Assassin" then 1 else 0)
    + (if tags.contains "Tank" then -1 else 0)
    + (if tags.contains "Support" then 1 else 0)
    + (if tags.contains "Fighter" then 1 else 0)
  let mid : ℤ := 1
    + (if tags.contains "Tank" then 1 else 0)
    + (if tags.contains "Support" then 1 else 0)
    + (if tags.contains "Fighter" then 1 else 0)
  let late : ℤ := 1
    + (if tags.contains "Marksman" then 1 else 0)
    + (if tags.contains "Assassin" then -1 else 0)
    + (if tags.contains "Mage" then 1 else 0)
    + (if tags.contains "Tank" then 1 else 0)
  (early, mid, late)

/-- `base_power = hp + (ad * 1.5) + ((armor + mr) * 8)`. -/
def basePower (st : ChampStats) : ℚ :=
  st.hp + (st.attackdamage * mkRat 3 2) + ((st.armor + st.spellblock) * 8)

/-- `late_power = (hp + hp_growth*18) + ((ad + ad_growth*18)*1.5)
+ ((armor + armor_growth*18 + mr + mr_growth*18)*8)`. -/
def latePower (st : ChampStats) : ℚ :=
  (st.hp + st.hpperlevel * 18)
    + ((st.attackdamage + st.attackdamageperlevel * 18) * mkRat 3 2)
    + ((st.armor + st.armorperlevel * 18 + st.spellblock + st.spellblockperlevel * 18) * 8)

/-- `growth_ratio = _safe_ratio(late_power, max(base_power, 1))`. -/
def championGrowthRatio (st : ChampStats) : ℚ :=
  safeRatio (latePower st) (max (basePower st) 1)

/-- The computed phase profile record. -/
structure PhaseProfile where
  early : String
  mid : String
  late : String
  notes : String
  source : String
  tags : List String
deriving DecidableEq, Repr

/-- Insertion into a `≤`-sorted list of strings. -/
def insertSorted (s : String) : List String → List String
  | [] => [s]
  | x :: xs => if s ≤ x then s :: x :: xs else x :: insertSorted s xs

/-- Python `sorted(set(tags))`: deduplicate, then sort lexicographically. -/
def sortedTagSet (tags : List String) : List String :=
  tags.dedup.foldr insertSorted []

/-- Comma-space join used for the heuristic notes string. -/
def joinCommaSep : List String → String
  | [] => ""
  | [s] => s
  | s :: rest => s ++ ", " ++ joinCommaSep rest

/-- `_champion_phase_profile(champion, overrides)`: `none` models the empty
dict returned for a falsy champion; a dict override wins, otherwise the
heuristic combines tag levels with the growth-ratio shift and clamps each
level into `[0, 2]`. -/
def championPhaseProfile (champion : Option Champion) (overrides : List (String × OverrideVal)) :
    Option PhaseProfile :=
  match champion with
  | none => none
  | some c =>
    match lookupOverride overrides (normalizeText (championDisplayName c)) with
    | some (OverrideVal.dict o) =>
      some
        { early := o.early.getD "average"
          mid := o.mid.getD "average"
          late := o.late.getD "average"
          notes := o.notes.getD ""
          source := "local_override"
          tags := c.tags }
    | _ =>
      let levels := tagLevels c.tags
      let growthRatio := championGrowthRatio c.stats
      let early := if growthRatio ≥ mkRat 11 5 then levels.1 - 1
        else if growthRatio ≤ mkRat 9 5 then levels.1 + 1
        else levels.1
      let late := if growthRatio ≥ mkRat 11 5 then levels.2.2 + 1
        else if growthRatio ≤ mkRat 9 5 then levels.2.2 - 1
        else levels.2.2
      some
        { early := phaseLabel (clampZ early 0 2)
          mid := phaseLabel (clampZ levels.2.1 0 2)
          late := phaseLabel (clampZ late 0 2)
          notes := "Heuristic profile from champion tags ("
            ++ joinCommaSep (sortedTagSet c.tags) ++ ") and stat growth."
          source := "heuristic"
          tags := sortedTagSet c.tags }

/-! ### Provider adapter and model resolver -/

/-- `_OPENCODE_ZEN_DEFAULT_CHAT_MODEL`. -/
def opencodeZenDefaultChatModel : String := "glm-4.7-free"

/-- `_OPENCODE_ZEN_CHAT_HINT_MODELS`. -/
def opencodeZenChatHintModels : List String := ["glm-4.7-free", "kimi-k2.5-free", "big-pickle"]

/-- `_is_opencode_zen_url`: `'opencode.ai/zen/' in (api_url or '').strip().lower()`. -/
def isOpencodeZenUrl (apiUrl : String) : Bool :=
  containsSubstring (lowerStr (pyStrip apiUrl)) "opencode.ai/zen/"

/-- `_is_prompt_tokens_500_error(api_url, status_code, response_text)`. -/
def isPromptTokens500Error (apiUrl : String) (statusCode : ℕ) (responseText : String) : Bool :=
  if statusCode < 500 then false
  else if ¬ isOpencodeZenUrl apiUrl then false
  else containsSubstring (lowerStr responseText) "prompt_tokens"

/-- `_resolve_provider_model(api_url, model)`; the live model catalog
(`_fetch_opencode_zen_models`) is passed in as the oracle `availableModels`
(empty on fetch failure, which fails open). -/
def resolveProviderModel (apiUrl model : String) (availableModels : List String) :
    Except String String :=
  let model := pyStrip model
  if model = "" then .error "LLM_MODEL is not set."
  else
    let normalizedUrl := lowerStr (pyStrip apiUrl)
    if ¬ isOpencodeZenUrl normalizedUrl then .ok model
    else if ¬ endsWithStr normalizedUrl "/chat/completions" then
      .error ("OpenCode Zen endpoint is not chat-completions compatible for this app. "
        ++ "Set LLM_API_URL to https://opencode.ai/zen/v1/chat/completions.")
    else
      let model := if model = "deepseek-chat" then opencodeZenDefaultChatModel else model
      if startsWithStr model "gpt-" || startsWithStr model "claude-" || startsWithStr model "gemini-" then
        .error ("Model '" ++ model ++ "' on OpenCode Zen is not compatible with /chat/completions. "
          ++ "Use a chat-completions model such as: " ++ joinCommaSep opencodeZenChatHintModels ++ ".")
      else if ¬ availableModels.isEmpty && ¬ availableModels.contains model then
        .error ("LLM model '" ++ model ++ "' is not available on OpenCode Zen. "
          ++ "Choose a model listed by https://opencode.ai/zen/v1/models (for example: "
          ++ joinCommaSep opencodeZenChatHintModels ++ ").")
      else .ok model

/-! ### Request settings (`_llm_request_settings`) -/

/-- The configuration keys `_llm_request_settings` reads.  `none` models a
missing key; numeric strings are taken after Python's `int(...)` /
`float(...)` conversion. -/
structure AppConfig where
  llmApiKey : String
  llmApiUrl : String
  llmModel : Option String
  llmTimeoutSeconds : Option ℤ
  llmRetries : Option ℤ
  llmRetryBackoffSeconds : Option ℚ
  llmMaxTokens : Option ℤ
deriving Repr

/-- Python `config.get(key, default) or default` for integer settings: a
missing key or a falsy (zero) value falls back to the default. -/
def orIntDefault (v : Option ℤ) (d : ℤ) : ℤ :=
  match v with
  | none => d
  | some x => if x = 0 then d else x

/-- Same falsy coalescing for float settings. -/
def orRatDefault (v : Option ℚ) (d : ℚ) : ℚ :=
  match v with
  | none => d
  | some x => if x = 0 then d else x

/-- The resolved provider settings record. -/
structure ProviderSettings where
  apiUrl : String
  model : String
  timeoutSeconds : ℤ
  retries : ℤ
  retryBackoff : ℚ
  maxTokens : ℤ
  headers : List (String × String)
deriving Repr

/-- `_llm_request_settings()`: clamp the configured values, require key and
URL, resolve the model, and build the headers. -/
def llmRequestSettings (cfg : AppConfig) (availableModels : List String) :
    Except String ProviderSettings :=
  let apiKey := cfg.llmApiKey
  let apiUrl := cfg.llmApiUrl
  let model := cfg.llmModel.getD "deepseek-chat"
  let timeoutSeconds := max 5 (orIntDefault cfg.llmTimeoutSeconds 30)
  let retries := max 0 (orIntDefault cfg.llmRetries 1)
  let retryBackoff := max 0 (orRatDefault cfg.llmRetryBackoffSeconds (mkRat 3 2))
  let maxTokens := max 256 (orIntDefault cfg.llmMaxTokens 2048)
  if apiKey = "" then .error "LLM_API_KEY is not set."
  else if apiUrl = "" then .error "LLM_API_URL is not set."
  else
    match resolveProviderModel apiUrl model availableModels with
    | .error e => .error e
    | .ok model =>
      .ok
        { apiUrl := apiUrl
          model := model
          timeoutSeconds := timeoutSeconds
          retries := retries
          retryBackoff := retryBackoff
          maxTokens := maxTokens
          headers := [("Authorization", "Bearer " ++ apiKey), ("Content-Type", "application/json")] }

/-! ### Request bodies and payload variants (`_request_body_variants`) -/

/-- The JSON request body: `model`, `messages` (role/content pairs), and the
optional `max_tokens` / `temperature` keys (`none` = key removed by
`pop`). -/
structure RequestBody where
  model : String
  messages : List (String × String)
  maxTokens : Option ℤ
  temperature : Option ℚ
deriving DecidableEq, Repr

/-- `_build_base_request_body(system_prompt, user_prompt, model, max_tokens)`
(the Python float `0.7` is the exact rational `7/10` here). -/
def buildBaseRequestBody (systemPrompt userPrompt model : String) (maxTokens : ℤ) : RequestBody where
  model := model
  messages := [("system", systemPrompt), ("user", userPrompt)]
  maxTokens := some maxTokens
  temperature := some (mkRat 7 10)

/-- `add_variant`: append unless an identical payload was already added
(`json.dumps(payload, sort_keys=True)` keys de-duplication is structural
equality of the body). -/
def addVariant (variants : List RequestBody) (payload : RequestBody) : List RequestBody :=
  if payload ∈ variants then variants else variants ++ [payload]

/-- First-occurrence de-duplication by structural equality, as the
`seen`-set loop of `_request_body_variants` produces it. -/
def dedupKeepFirst (payloads : List RequestBody) : List RequestBody :=
  payloads.foldl addVariant []

/-- `_request_body_variants(api_url, base_body)`. -/
def requestBodyVariants (apiUrl : String) (baseBody : RequestBody) : List RequestBody :=
  let variants := addVariant [] baseBody
  if ¬ isOpencodeZenUrl apiUrl then variants
  else
    let noTemperature := { baseBody with temperature := none }
    let variants := addVariant variants noTemperature
    let minimalCurrentModel := { noTemperature with maxTokens := none }
    let variants := addVariant variants minimalCurrentModel
    let fallbackModels := opencodeZenDefaultChatModel :: opencodeZenChatHintModels
    fallbackModels.foldl
      (fun acc fallbackModel => addVariant acc { minimalCurrentModel with model := fallbackModel })
      variants

/-! ### Executor error messages -/

/-- Python slice `s[:300]`. -/
def take300 (s : String) : String := ⟨s.data.take 300⟩

/-- Python slice `s[:200]`. -/
def take200 (s : String) : String := ⟨s.data.take 200⟩

/-- Message of the 401 branch. -/
def auth401Msg (responseText : String) : String :=
  "Authentication failed (401). Check your LLM_API_KEY. Response: " ++ take200 responseText

/-- Message of the 404 branch. -/
def notFound404Msg (apiUrl : String) : String :=
  "Endpoint not found (404). Check your LLM_API_URL: " ++ apiUrl

/-- Message of the 5xx branch (also used verbatim by the non-200 branch). -/
def statusMsg (status : ℕ) (responseText : String) : String :=
  "LLM API returned status " ++ toString status ++ ": " ++ take300 responseText

/-- Message recorded when an attempt times out. -/
def timeoutMsg (timeoutSeconds : ℤ) (attempt attempts : ℕ) (apiUrl model : String) : String :=
  "Request timed out after " ++ toString timeoutSeconds ++ "s (attempt "
    ++ toString (attempt + 1) ++ "/" ++ toString attempts ++ "). URL: "
    ++ apiUrl ++ " | Model: " ++ model

/-- Suffix appended to the timeout message on the terminal attempt. -/
def timeoutSuffix : String :=
  " Consider lowering LLM_MAX_TOKENS/LLM_RESPONSE_TOKEN_TARGET or verifying provider latency/endpoint."

/-- Message recorded for a `requests.RequestException`. -/
def requestFailedMsg (apiUrl errText : String) : String :=
  "Request failed. URL: " ++ apiUrl ++ " | Error: " ++ errText

/-- Message of the 200-with-empty-body branch. -/
def emptyBodyMsg (apiUrl model : String) : String :=
  "LLM API returned empty response body. URL: " ++ apiUrl ++ " | Model: " ++ model

/-- Message of the 200-with-non-JSON-body branch. -/
def nonJsonMsg (apiUrl rawBody : String) : String :=
  "LLM API returned non-JSON response. URL: " ++ apiUrl ++ " | Body: " ++ take300 rawBody

/-- Message of the 200-with-missing-content branch. -/
def missingContentMsg (apiUrl rawBody : String) : String :=
  "LLM API response missing choices/content. URL: " ++ apiUrl ++ " | Body: " ++ take300 rawBody

/-- Message of the stream's missing-content branch. -/
def streamMissingContentMsg (apiUrl model : String) : String :=
  "LLM stream response missing choices/content. URL: " ++ apiUrl ++ " | Model: " ++ model

/-- Python `a or b` on strings (empty is falsy). -/
def orElseStr (a : Option String) (b : String) : String :=
  match a with
  | none => b
  | some s => if s = "" then b else s

/-! ### Synchronous executor (`get_llm_analysis_detailed` request loop) -/

/-- The `message` object of a parsed 200 body
(`choices[0].get('message', {})`): `content` / `reasoning_content`. -/
structure SyncMessage where
  content : Option String
  reasoningContent : Option String
deriving DecidableEq, Repr

/-- Parse outcome of `resp.json()` for the synchronous path: `notJson`
models a `ValueError`; otherwise the `choices` key (`none` = key missing,
so `data.get('choices', [{}])` supplies `[{}]`); each choice's `message`
key may itself be missing. -/
inductive SyncParse where
  | notJson
  | json (choices : Option (List (Option SyncMessage)))
deriving DecidableEq, Repr

/-- One provider response for a synchronous attempt: `requests.post` raises
a timeout, raises another request exception, or returns a status with a
body text and its parse outcome. -/
inductive SyncResp where
  | timeout
  | reqError (msg : String)
  | http (status : ℕ) (text : String) (parse : SyncParse)
deriving DecidableEq, Repr

/-- Externally visible actions of the executor: issuing a request with a
payload, and sleeping between retries. -/
inductive Action where
  | send (body : RequestBody)
  | sleep (seconds : ℚ)
deriving DecidableEq, Repr

/-- Outcome of the synchronous executor: success text, the `(None, error)`
tuple, an uncaught `IndexError` (a 200 body with `choices: []`), or the
model artifact of an exhausted response oracle. -/
inductive SyncOutcome where
  | ok (text : String)
  | err (msg : String)
  | raised
  | noResponse
deriving DecidableEq, Repr

/-- Exit of the retry loop over one payload variant: a terminal return, or
the `break` that advances to the next variant carrying `last_error`. -/
inductive SyncExit where
  | ret (outcome : SyncOutcome)
  | nextVariant (lastError : String)
deriving DecidableEq, Repr

/-- The 200-status body handling of the synchronous path. -/
def syncParse200 (apiUrl model text : String) (parse : SyncParse) : SyncOutcome :=
  if pyStrip text = "" then .err (emptyBodyMsg apiUrl model)
  else
    match parse with
    | .notJson => .err (nonJsonMsg apiUrl text)
    | .json choices =>
      match choices.getD [none] with
      | [] => .raised
      | choice :: _ =>
        let message := choice.getD ⟨none, none⟩
        let content := orElseStr message.content (orElseStr message.reasoningContent "")
        if content = "" then .err (missingContentMsg apiUrl text)
        else .ok (softTextClean content)

/-- The inner `for attempt in range(attempts)` loop of
`get_llm_analysis_detailed` for one variant `body`.  `remaining` counts the
attempts still allowed after the current one (`attempt < retries` iff
`remaining > 0`), so `attempt = retries - remaining`; the response oracle
`rs` is consumed one entry per issued request. -/
def syncAttemptLoop (st : ProviderSettings) (body : RequestBody) (isLast : Bool) :
    String → ℕ → List SyncResp → List Action × SyncExit × List SyncResp
  | _, _, [] => ([Action.send body], .ret .noResponse, [])
  | _lastError, remaining, r :: rest =>
    let retriesN := st.retries.toNat
    let attempt := retriesN - remaining
    match r with
    | .timeout =>
      let lastError' := timeoutMsg st.timeoutSeconds attempt (retriesN + 1) st.apiUrl body.model
      match remaining with
      | k + 1 =>
        let sleeps := if st.retryBackoff > 0
          then [Action.sleep (st.retryBackoff * 2 ^ attempt)] else []
        let (acts, exit, rs') := syncAttemptLoop st body isLast lastError' k rest
        (Action.send body :: (sleeps ++ acts), exit, rs')
      | 0 => ([Action.send body], .ret (.err (lastError' ++ timeoutSuffix)), rest)
    | .reqError e =>
      let lastError' := requestFailedMsg st.apiUrl e
      match remaining with
      | k + 1 =>
        let sleeps := if st.retryBackoff > 0
          then [Action.sleep (st.retryBackoff * 2 ^ attempt)] else []
        let (acts, exit, rs') := syncAttemptLoop st body isLast lastError' k rest
        (Action.send body :: (sleeps ++ acts), exit, rs')
      | 0 => ([Action.send body], .ret (.err lastError'), rest)
    | .http status text parse =>
      if status = 401 then ([Action.send body], .ret (.err (auth401Msg text)), rest)
      else if status = 404 then ([Action.send body], .ret (.err (notFound404Msg st.apiUrl)), rest)
      else if 500 ≤ status then
        let lastError' := statusMsg status text
        if isPromptTokens500Error st.apiUrl status text && !isLast then
          ([Action.send body], .nextVariant lastError', rest)
        else
          match remaining with
          | k + 1 =>
            let sleeps := if st.retryBackoff > 0
              then [Action.sleep (st.retryBackoff * 2 ^ attempt)] else []
            let (acts, exit, rs') := syncAttemptLoop st body isLast lastError' k rest
            (Action.send body :: (sleeps ++ acts), exit, rs')
          | 0 => ([Action.send body], .ret (.err lastError'), rest)
      else if status ≠ 200 then
        ([Action.send body], .ret (.err (statusMsg status text)), rest)
      else
        ([Action.send body], .ret (syncParse200 st.apiUrl body.model text parse), rest)

/-- The outer `for variant_index, body in enumerate(body_variants)` loop:
`variant_index < len(body_variants) - 1` is `¬ rest.isEmpty` for the
current head. -/
def syncVariantLoop (st : ProviderSettings) :
    List RequestBody → String → List SyncResp → List Action × SyncOutcome × List SyncResp
  | [], lastError, rs =>
    ([], .err (if lastError = "" then "Unknown LLM request failure." else lastError), rs)
  | v :: rest, lastError, rs =>
    let (acts, exit, rs') := syncAttemptLoop st v rest.isEmpty lastError st.retries.toNat rs
    match exit with
    | .ret o => (acts, o, rs')
    | .nextVariant lastError' =>
      let (acts2, o, rs'') := syncVariantLoop st rest lastError' rs'
      (acts ++ acts2, o, rs'')

/-- The request/retry portion of `get_llm_analysis_detailed`, starting from
the already-built base body: build the variant list and run the loops
against the response oracle. -/
def syncExecutor (st : ProviderSettings) (baseBody : RequestBody) (rs : List SyncResp) :
    List Action × SyncOutcome :=
  let bodyVariants := requestBodyVariants st.apiUrl baseBody
  let (acts, o, _) := syncVariantLoop st bodyVariants "" rs
  (acts, o)

/-! ### Streaming executor (`iter_llm_analysis_stream`) -/

/-- A value handed to `_coerce_stream_text`: absent/None/other types
coerce to `''` (`null`), a string is itself, a list is joined item by
item. -/
inductive CoerceItem where
  | dict (text : Option String) (content : Option String)
  | null
  | prim (s : String)
deriving DecidableEq, Repr

/-- A `content`-like field value for `_coerce_stream_text`. -/
inductive CoerceVal where
  | null
  | str (s : String)
  | list (items : List CoerceItem)
deriving DecidableEq, Repr

/-- Per-item text of `_coerce_stream_text`'s list branch:
`item.get('text') or item.get('content') or ''`, `''` for `None`,
`str(item)` otherwise. -/
def coerceItemText : CoerceItem → String
  | .dict text content => orElseStr text (orElseStr content "")
  | .null => ""
  | .prim s => s

/-- `_coerce_stream_text(value)`. -/
def coerceStreamText : CoerceVal → String
  | .str s => s
  | .list items => String.join ((items.map coerceItemText).filter (fun t => t ≠ ""))
  | .null => ""

/-- One entry of a frame's `choices` list; a falsy or non-dict choice is
the all-`null` record (every field lookup yields `''`). -/
structure StreamChoice where
  deltaContent : CoerceVal
  messageContent : CoerceVal
  messageReasoning : CoerceVal
  textField : CoerceVal
deriving DecidableEq, Repr

/-- A parsed stream frame: `payload.get('choices') or []` (missing, `None`
and `[]` all coalesce to the empty list). -/
structure StreamFrame where
  choices : List StreamChoice
deriving DecidableEq, Repr

/-- `_extract_stream_delta(choice)`: `delta.content`, then
`message.content or message.reasoning_content`, then `text`. -/
def extractStreamDelta (choice : StreamChoice) : String :=
  let content := coerceStreamText choice.deltaContent
  if content ≠ "" then content
  else
    let content := coerceStreamText choice.messageContent
    let content := if content = "" then coerceStreamText choice.messageReasoning else content
    if content ≠ "" then content
    else coerceStreamText choice.textField

/-- One line delivered by `resp.iter_lines`: the raw text, and the outcome
of `json.loads` on the stripped payload (`none` = `JSONDecodeError`). -/
structure StreamLine where
  raw : String
  frame : Option StreamFrame
deriving DecidableEq, Repr

/-- How the line iterator ends when no `[DONE]` sentinel was seen: the
stream closes normally, or the read raises mid-iteration. -/
inductive StreamEnd where
  | closed
  | raiseTimeout
  | raiseReqError (msg : String)
deriving DecidableEq, Repr

/-- The per-line dispatch of the stream loop: blank and comment lines are
skipped, a `data:` prefix is stripped, `[DONE]` breaks, an unparseable or
choice-less frame is skipped, and a non-empty delta is emitted. -/
inductive LineStep where
  | skip
  | stop
  | chunk (delta : String)
deriving DecidableEq, Repr

/-- Classify one raw line exactly as the loop body does. -/
def streamLineStep (l : StreamLine) : LineStep :=
  if l.raw = "" then .skip
  else
    let line := pyStrip l.raw
    if line = "" || startsWithStr line ":" then .skip
    else
      let line := if startsWithStr line "data:" then pyStrip ⟨line.data.drop 5⟩ else line
      if line = "" then .skip
      else if line = "[DONE]" then .stop
      else
        match l.frame with
        | none => .skip
        | some f =>
          match f.choices with
          | [] => .skip
          | choice :: _ =>
            let delta := extractStreamDelta choice
            if delta = "" then .skip else .chunk delta

/-- Run the line loop: the ordered list of collected/emitted deltas, and
whether a `[DONE]` sentinel broke the iteration (in which case the
iterator's terminal behaviour is never observed). -/
def collectStream : List StreamLine → List String × Bool
  | [] => ([], false)
  | l :: rest =>
    match streamLineStep l with
    | .skip => collectStream rest
    | .stop => ([], true)
    | .chunk d =>
      let (ds, sawDone) := collectStream rest
      (d :: ds, sawDone)

/-- Caller-facing stream events of `iter_llm_analysis_stream`. -/
inductive StreamEv where
  | chunk (delta : String)
  | done (analysis : String)
  | error (msg : String)
deriving DecidableEq, Repr

/-- Trace element of the streaming executor: a request send (the body is
posted with `stream: true`), a retry sleep, or a yielded event. -/
inductive StreamStep where
  | send (body : RequestBody)
  | sleep (seconds : ℚ)
  | emit (e : StreamEv)
deriving DecidableEq, Repr

/-- One provider response for a streaming attempt: post-level exceptions,
or a status with body text, the delivered lines, and how the iterator
ends. -/
inductive StreamResp where
  | timeout
  | reqError (msg : String)
  | http (status : ℕ) (text : String) (lines : List StreamLine) (ending : StreamEnd)
deriving DecidableEq, Repr

/-- Exit of the streaming retry loop for one variant. -/
inductive StreamExit where
  | halt
  | nextVariant (lastError : String)
  | noResponse
deriving DecidableEq, Repr

/-- The inner retry loop of `iter_llm_analysis_stream` for one variant:
identical 401/404/5xx/non-200 handling to the synchronous path; on a 200
the delivered lines are relayed as `chunk` events while accumulating, and
a mid-iteration exception reaches the same `except` clauses — after the
already-emitted chunks — and is retried like any transport error. -/
def streamAttemptLoop (st : ProviderSettings) (body : RequestBody) (isLast : Bool) :
    String → ℕ → List StreamResp → List StreamStep × StreamExit × List StreamResp
  | _, _, [] => ([StreamStep.send body], .noResponse, [])
  | _lastError, remaining, r :: rest =>
    let retriesN := st.retries.toNat
    let attempt := retriesN - remaining
    match r with
    | .timeout =>
      let lastError' := timeoutMsg st.timeoutSeconds attempt (retriesN + 1) st.apiUrl body.model
      match remaining with
      | k + 1 =>
        let sleeps := if st.retryBackoff > 0
          then [StreamStep.sleep (st.retryBackoff * 2 ^ attempt)] else []
        let (steps, exit, rs') := streamAttemptLoop st body isLast lastError' k rest
        (StreamStep.send body :: (sleeps ++ steps), exit, rs')
      | 0 =>
        ([StreamStep.send body, StreamStep.emit (.error (lastError' ++ timeoutSuffix))], .halt, rest)
    | .reqError e =>
      let lastError' := requestFailedMsg st.apiUrl e
      match remaining with
      | k + 1 =>
        let sleeps := if st.retryBackoff > 0
          then [StreamStep.sleep (st.retryBackoff * 2 ^ attempt)] else []
        let (steps, exit, rs') := streamAttemptLoop st body isLast lastError' k rest
        (StreamStep.send body :: (sleeps ++ steps), exit, rs')
      | 0 => ([StreamStep.send body, StreamStep.emit (.error lastError')], .halt, rest)
    | .http status text lines ending =>
      if status = 401 then
        ([StreamStep.send body, StreamStep.emit (.error (auth401Msg text))], .halt, rest)
      else if status = 404 then
        ([StreamStep.send body, StreamStep.emit (.error (notFound404Msg st.apiUrl))], .halt, rest)
      else if 500 ≤ status then
        let lastError' := statusMsg status text
        if isPromptTokens500Error st.apiUrl status text && !isLast then
          ([StreamStep.send body], .nextVariant lastError', rest)
        else
          match remaining with
          | k + 1 =>
            let sleeps := if st.retryBackoff > 0
              then [StreamStep.sleep (st.retryBackoff * 2 ^ attempt)] else []
            let (steps, exit, rs') := streamAttemptLoop st body isLast lastError' k rest
            (StreamStep.send body :: (sleeps ++ steps), exit, rs')
          | 0 => ([StreamStep.send body, StreamStep.emit (.error lastError')], .halt, rest)
      else if status ≠ 200 then
        ([StreamStep.send body, StreamStep.emit (.error (statusMsg status text))], .halt, rest)
      else
        let collected := collectStream lines
        let chunkSteps := collected.1.map (fun d => StreamStep.emit (.chunk d))
        match ending, collected.2 with
        | .raiseTimeout, false =>
          let lastError' := timeoutMsg st.timeoutSeconds attempt (retriesN + 1) st.apiUrl body.model
          (match remaining with
          | k + 1 =>
            let sleeps := if st.retryBackoff > 0
              then [StreamStep.sleep (st.retryBackoff * 2 ^ attempt)] else []
            let (steps, exit, rs') := streamAttemptLoop st body isLast lastError' k rest
            (StreamStep.send body :: (chunkSteps ++ sleeps ++ steps), exit, rs')
          | 0 =>
            (StreamStep.send body :: (chunkSteps
              ++ [StreamStep.emit (.error (lastError' ++ timeoutSuffix))]), .halt, rest))
        | .raiseReqError e, false =>
          let lastError' := requestFailedMsg st.apiUrl e
          (match remaining with
          | k + 1 =>
            let sleeps := if st.retryBackoff > 0
              then [StreamStep.sleep (st.retryBackoff * 2 ^ attempt)] else []
            let (steps, exit, rs') := streamAttemptLoop st body isLast lastError' k rest
            (StreamStep.send body :: (chunkSteps ++ sleeps ++ steps), exit, rs')
          | 0 =>
            (StreamStep.send body :: (chunkSteps
              ++ [StreamStep.emit (.error lastError')]), .halt, rest))
        | _, _ =>
          let content := softTextClean (String.join collected.1)
          if content = "" then
            (StreamStep.send body :: (chunkSteps
              ++ [StreamStep.emit (.error (streamMissingContentMsg st.apiUrl body.model))]),
              .halt, rest)
          else
            (StreamStep.send body :: (chunkSteps
              ++ [StreamStep.emit (.done content)]), .halt, rest)

/-- The outer variant loop of `iter_llm_analysis_stream`; falling off the
end yields the final error event with the last recorded error. -/
def streamVariantLoop (st : ProviderSettings) :
    List RequestBody → String → List StreamResp → List StreamStep × List StreamResp
  | [], lastError, rs =>
    ([StreamStep.emit (.error
      (if lastError = "" then "Unknown LLM stream request failure." else lastError))], rs)
  | v :: rest, lastError, rs =>
    let (steps, exit, rs') := streamAttemptLoop st v rest.isEmpty lastError st.retries.toNat rs
    match exit with
    | .halt => (steps, rs')
    | .noResponse => (steps, rs')
    | .nextVariant lastError' =>
      let (steps2, rs'') := streamVariantLoop st rest lastError' rs'
      (steps ++ steps2, rs'')

/-- The request/retry portion of `iter_llm_analysis_stream`, starting from
the already-built base body. -/
def streamExecutor (st : ProviderSettings) (baseBody : RequestBody) (rs : List StreamResp) :
    List StreamStep :=
  let bodyVariants := requestBodyVariants st.apiUrl baseBody
  (streamVariantLoop st bodyVariants "" rs).1

/-- The temporal property claimed for streams: from the first emitted
chunk onward, no request is ever (re-)issued. -/
def noReissueAfterChunk (steps : List StreamStep) : Bool :=
  ((steps.dropWhile fun s =>
      match s with
      | StreamStep.emit (StreamEv.chunk _) => false
      | _ => true).filter fun s =>
      match s with
      | StreamStep.send _ => true
      | _ => false).isEmpty

/-! ### Caller-facing error classification (`app/dashboard/routes.py`) -/

/-- `_ai_error_status(error)`. -/
def aiErrorStatus (error : String) : ℕ :=
  let errorL := lowerStr error
  if containsSubstring errorL "timed out" then 504
  else if containsSubstring errorL "not compatible with /chat/completions"
      || containsSubstring errorL "not available on opencode zen"
      || containsSubstring errorL "llm_" then 400
  else 502

/-- Terminal caller-facing outcome of the dashboard stream endpoint. -/
inductive CallerOutcome where
  | stale (analysis : String) (error : String)
  | errorOut (error : String) (status : ℕ)
deriving DecidableEq, Repr

/-- The error-event handling of `api_ai_analysis_stream`: with a previously
cached analysis the caller gets a `stale` event carrying the error,
otherwise an `error` event with `_ai_error_status(error)`. -/
def terminalErrorOutcome (cachedAnalysis : Option String) (error : String) : CallerOutcome :=
  match cachedAnalysis with
  | some analysis => .stale analysis error
  | none => .errorOut error (aiErrorStatus error)

/-! ### Reference-data version lookup (`_fetch_current_patch`) -/

/-- The module-level `_PATCH_CACHE` dict. -/
structure PatchCache where
  expiresAt : ℚ
  value : String
deriving Repr

/-- The single TTL `_fetch_current_patch` writes: `now + 6 * 3600`. -/
def patchCacheTtl : ℚ := 21600

/-- Outcome of `requests.get` on the versions URL: an exception, or a
status with the parsed body (`some versions` when `resp.json()` is a
list). -/
inductive VersionsFetch where
  | exn
  | http (status : ℕ) (versions : Option (List String))
deriving Repr

/-- `_fetch_current_patch()` as a state transition: given the cache and the
clock, return the value, the new cache, and whether a network fetch
happened. -/
def fetchCurrentPatch (externalEnabled : Bool) (cache : PatchCache) (now : ℚ)
    (fetch : VersionsFetch) : String × PatchCache × Bool :=
  if ¬ externalEnabled then ("", cache, false)
  else if cache.expiresAt > now then (cache.value, cache, false)
  else
    let patch := match fetch with
      | .exn => ""
      | .http status versions =>
        if status = 200 then
          match versions with
          | some (v :: _) => v
          | _ => ""
        else ""
    (patch, { value := patch, expiresAt := now + patchCacheTtl }, true)

/-! ### Shared lemmas -/

/-- Every phase label is one of the three valid strings. -/
theorem phaseLabel_mem (level : ℤ) :
    phaseLabel level ∈ (["weak", "average", "strong"] : List String) := by
  unfold phaseLabel
  split_ifs <;> simp

/-- Claim-side level-1 effective power, in the spec's words:
`HP + 1.5×AD + 8×(armor+MR)`. -/
def specBasePower (st : ChampStats) : ℚ :=
  st.hp + mkRat 3 2 * st.attackdamage + 8 * (st.armor + st.spellblock)

/-- Claim-side extrapolated level-18 effective power: the same effective
power formula evaluated on the base stats grown by 18 levels. -/
def specLatePower (st : ChampStats) : ℚ :=
  (st.hp + 18 * st.hpperlevel)
    + mkRat 3 2 * (st.attackdamage + 18 * st.attackdamageperlevel)
    + 8 * ((st.armor + 18 * st.armorperlevel) + (st.spellblock + 18 * st.spellblockperlevel))

/-- Claim-side shift of the early level: ratio `≥ 2.2` shifts one step down
(toward late-game strength), ratio `≤ 1.8` one step up, otherwise no
change. -/
def specEarlyShift (r : ℚ) : ℤ :=
  if r ≥ mkRat 11 5 then -1 else if r ≤ mkRat 9 5 then 1 else 0

/-- Claim-side shift of the late level, opposite to the early shift. -/
def specLateShift (r : ℚ) : ℤ :=
  if r ≥ mkRat 11 5 then 1 else if r ≤ mkRat 9 5 then -1 else 0

/-! ### Claim C6 -/

/-- C6: for every champion record that has no local override (so only
tag/stat data is used), the derived phase profile assigns each of the
early, mid and late phases a label drawn from weak/average/strong. -/
theorem C6_phase_labels_valid (c : Champion) (overrides : List (String × OverrideVal))
    (h : lookupOverride overrides (normalizeText (championDisplayName c)) = none) :
    ∃ p, championPhaseProfile (some c) overrides = some p ∧ p.source = "heuristic"
      ∧ p.early ∈ (["weak", "average", "strong"] : List String)
      ∧ p.mid ∈ (["weak", "average", "strong"] : List String)
      ∧ p.late ∈ (["weak", "average", "strong"] : List String) := by
  unfold championPhaseProfile
  dsimp only
  rw [h]
  exact ⟨_, rfl, rfl, phaseLabel_mem _, phaseLabel_mem _, phaseLabel_mem _⟩

/-- Fixture: all-zero base stats. -/
def exStats : ChampStats :=
  { hp := 0, hpperlevel := 0, attackdamage := 0, attackdamageperlevel := 0
    armor := 0, armorperlevel := 0, spellblock := 0, spellblockperlevel := 0 }

/-- Fixture: a tag-only champion record with no override. -/
def exChampion : Champion :=
  { name := "Jinx", id := "Jinx", tags := ["Marksman"], stats := exStats }

/-- Witness for C6 at a concrete champion with an empty override table. -/
theorem C6_phase_labels_valid_witness :
    lookupOverride [] (normalizeText (championDisplayName exChampion)) = none
      ∧ ∃ p, championPhaseProfile (some exChampion) [] = some p ∧ p.source = "heuristic"
        ∧ p.early ∈ (["weak", "average", "strong"] : List String)
        ∧ p.mid ∈ (["weak", "average", "strong"] : List String)
        ∧ p.late ∈ (["weak", "average", "strong"] : List String) :=
  ⟨rfl, C6_phase_labels_valid exChampion [] rfl⟩

/-! ### Claim C7 -/

/-- C7: for every heuristically profiled champion, the growth ratio equals
the extrapolated level-18 effective power divided by the level-1 effective
power `HP + 1.5×AD + 8×(armor+MR)` with the denominator floored at `1`;
a ratio `≥ 2.2` shifts the tag-derived profile one step toward late-game
strength (early down, late up), a ratio `≤ 1.8` one step toward early-game
strength, and a ratio strictly between leaves the tag-derived levels
unchanged (the mid level is never shifted). -/
theorem C7_growth_ratio_shift (c : Champion) (overrides : List (String × OverrideVal))
    (h : lookupOverride overrides (normalizeText (championDisplayName c)) = none) :
    championGrowthRatio c.stats = specLatePower c.stats / max (specBasePower c.stats) 1
      ∧ ∃ p, championPhaseProfile (some c) overrides = some p
        ∧ p.early = phaseLabel (clampZ ((tagLevels c.tags).1
            + specEarlyShift (championGrowthRatio c.stats)) 0 2)
        ∧ p.mid = phaseLabel (clampZ (tagLevels c.tags).2.1 0 2)
        ∧ p.late = phaseLabel (clampZ ((tagLevels c.tags).2.2
            + specLateShift (championGrowthRatio c.stats)) 0 2) := by
  have hden : (0 : ℚ) < max (basePower c.stats) 1 :=
    lt_of_lt_of_le one_pos (le_max_right _ _)
  have hbase : basePower c.stats = specBasePower c.stats := by
    unfold basePower specBasePower; ring
  have hlate : latePower c.stats = specLatePower c.stats := by
    unfold latePower specLatePower; ring
  constructor
  · unfold championGrowthRatio safeRatio
    rw [if_neg (ne_of_gt hden), hbase, hlate]
  · unfold championPhaseProfile
    dsimp only
    rw [h]
    refine ⟨_, rfl, ?_, ?_, ?_⟩
    · unfold specEarlyShift
      split_ifs with h1 h2
      all_goals dsimp only
      all_goals congr 1
      all_goals (unfold clampZ; omega)
    · rfl
    · unfold specLateShift
      split_ifs with h1 h2
      all_goals dsimp only
      all_goals congr 1
      all_goals (unfold clampZ; omega)

/-- Witness for C7 at the concrete fixture champion. -/
theorem C7_growth_ratio_shift_witness :
    lookupOverride [] (normalizeText (championDisplayName exChampion)) = none
      ∧ (championGrowthRatio exChampion.stats
          = specLatePower exChampion.stats / max (specBasePower exChampion.stats) 1
        ∧ ∃ p, championPhaseProfile (some exChampion) [] = some p
          ∧ p.early = phaseLabel (clampZ ((tagLevels exChampion.tags).1
              + specEarlyShift (championGrowthRatio exChampion.stats)) 0 2)
          ∧ p.mid = phaseLabel (clampZ (tagLevels exChampion.tags).2.1 0 2)
          ∧ p.late = phaseLabel (clampZ ((tagLevels exChampion.tags).2.2
              + specLateShift (championGrowthRatio exChampion.stats)) 0 2)) :=
  ⟨rfl, C7_growth_ratio_shift exChampion [] rfl⟩

/-! ### Claim C8 -/

/-- C8: every KDA-style ratio divides `kills + assists` by a denominator
floored at `1`, so a zero-death stat block never divides by zero; the same
holds for the per-participant metrics and for the inline lane-opponent
computation, which agrees with `_participant_kda`. -/
theorem C8_kda_denominator_floored (p : Participant) :
    0 < kdaDenominator p
      ∧ participantKda p = round2 (((p.kills : ℚ) + (p.assists : ℚ)) / (kdaDenominator p : ℚ))
      ∧ (∀ durationMinutes : ℚ, (participantMetrics p durationMinutes).kda = participantKda p)
      ∧ laneOpponentKda p = participantKda p
      ∧ (p.deaths = 0 → participantKda p = round2 ((p.kills : ℚ) + (p.assists : ℚ))) := by
  have hpos : 0 < kdaDenominator p := lt_of_lt_of_le one_pos (le_max_left _ _)
  have hcast : ((kdaDenominator p : ℕ) : ℚ) ≠ 0 := by
    exact_mod_cast Nat.pos_iff_ne_zero.mp hpos
  refine ⟨hpos, ?_, fun _ => rfl, rfl, ?_⟩
  · unfold participantKda safeRatio
    rw [if_neg hcast]
  · intro hdeaths
    unfold participantKda safeRatio kdaDenominator
    rw [hdeaths]
    norm_num

/-- Fixture: a zero-death participant stat block. -/
def exParticipant : Participant :=
  { kills := 7, deaths := 0, assists := 5, goldEarned := 12000, totalDamage := 20000
    cs := 210, visionScore := 18, isPlayer := true, teamId := 100
    champion := "Jinx", position := "BOTTOM", summonerId := "S1" }

/-- Witness for C8 at a zero-death participant. -/
theorem C8_kda_denominator_floored_witness :
    0 < kdaDenominator exParticipant
      ∧ participantKda exParticipant
          = round2 ((exParticipant.kills : ℚ) + (exParticipant.assists : ℚ)) := by
  have h := C8_kda_denominator_floored exParticipant
  exact ⟨h.1, h.2.2.2.2 rfl⟩

/-! ### Claim C10 -/

/-- C10: whenever settings resolution succeeds, the resolved values sit on
their safe floors: timeout at least 5, retries at least 0, backoff at
least 0, max-token budget at least 256 — whatever the configuration
supplied. -/
theorem C10_settings_clamped (cfg : AppConfig) (availableModels : List String)
    (s : ProviderSettings) (h : llmRequestSettings cfg availableModels = .ok s) :
    5 ≤ s.timeoutSeconds ∧ 0 ≤ s.retries ∧ 0 ≤ s.retryBackoff ∧ 256 ≤ s.maxTokens := by
  unfold llmRequestSettings at h
  dsimp only at h
  split_ifs at h with hk hu
  rcases hm : resolveProviderModel cfg.llmApiUrl (cfg.llmModel.getD "deepseek-chat")
      availableModels with e | m
  · rw [hm] at h
    exact absurd h (by simp)
  · rw [hm] at h
    rw [Except.ok.injEq] at h
    subst h
    exact ⟨le_max_left _ _, le_max_left _ _, le_max_left _ _, le_max_left _ _⟩

/-- Fixture: a configuration supplying sub-floor values everywhere. -/
def exConfig : AppConfig :=
  { llmApiKey := "key"
    llmApiUrl := "https://api.example.com/v1/chat/completions"
    llmModel := some "m"
    llmTimeoutSeconds := some 1
    llmRetries := some (-3)
    llmRetryBackoffSeconds := some (-1)
    llmMaxTokens := some 10 }

/-- Witness for C10: the sub-floor configuration resolves and is clamped. -/
theorem C10_settings_clamped_witness :
    ∃ s, llmRequestSettings exConfig [] = .ok s
      ∧ (5 ≤ s.timeoutSeconds ∧ 0 ≤ s.retries ∧ 0 ≤ s.retryBackoff ∧ 256 ≤ s.maxTokens) :=
  ⟨_, rfl, C10_settings_clamped exConfig [] _ rfl⟩

/-! ### Claim C9 -/

/-- The de-duplicating append never yields an empty list. -/
theorem addVariant_ne_nil (vs : List RequestBody) (b : RequestBody) : addVariant vs b ≠ [] := by
  unfold addVariant
  split_ifs with hmem
  · intro hnil
    subst hnil
    simp at hmem
  · simp

/-- The de-duplicating append preserves the head of a non-empty list. -/
theorem addVariant_head (vs : List RequestBody) (b : RequestBody) (h : vs ≠ []) :
    (addVariant vs b).head? = vs.head? := by
  unfold addVariant
  split_ifs with hmem
  · rfl
  · cases vs with
    | nil => exact absurd rfl h
    | cons x xs => rfl

/-- Folding the de-duplicating append preserves the head of a non-empty
accumulator. -/
theorem foldl_addVariant_head (l : List RequestBody) (acc : List RequestBody) (h : acc ≠ []) :
    (l.foldl addVariant acc).head? = acc.head? := by
  induction l generalizing acc with
  | nil => rfl
  | cons b bs ih =>
    rw [List.foldl_cons, ih _ (addVariant_ne_nil acc b), addVariant_head acc b h]

/-- The de-duplicating append preserves `Nodup`. -/
theorem addVariant_nodup (vs : List RequestBody) (b : RequestBody) (h : vs.Nodup) :
    (addVariant vs b).Nodup := by
  unfold addVariant
  split_ifs with hmem
  · exact h
  · rw [List.nodup_append]
    exact ⟨h, List.nodup_singleton b, by simpa using hmem⟩

/-- Folding the de-duplicating append preserves `Nodup`. -/
theorem foldl_addVariant_nodup (l : List RequestBody) (acc : List RequestBody) (h : acc.Nodup) :
    (l.foldl addVariant acc).Nodup := by
  induction l generalizing acc with
  | nil => exact h
  | cons b bs ih => exact ih _ (addVariant_nodup acc b h)

/-- The first-occurrence de-duplication never contains duplicates. -/
theorem dedupKeepFirst_nodup (l : List RequestBody) : (dedupKeepFirst l).Nodup :=
  foldl_addVariant_nodup l [] List.nodup_nil

/-- The first-occurrence de-duplication of a non-empty list keeps its head. -/
theorem dedupKeepFirst_head (b : RequestBody) (l : List RequestBody) :
    (dedupKeepFirst (b :: l)).head? = some b := by
  unfold dedupKeepFirst
  rw [List.foldl_cons]
  have hb : addVariant [] b = [b] := by
    unfold addVariant
    simp
  rw [hb, foldl_addVariant_head l [b] (by simp)]
  rfl

/-- The quirky-endpoint equation: the produced variants are exactly the
first-occurrence de-duplication of base, temperature-stripped,
max-token-stripped, and the fallback-model substitutions. -/
theorem requestBodyVariants_quirky (apiUrl : String) (base : RequestBody)
    (hq : isOpencodeZenUrl apiUrl = true) :
    requestBodyVariants apiUrl base
      = dedupKeepFirst ([base, { base with temperature := none },
            { base with temperature := none, maxTokens := none }]
          ++ (opencodeZenDefaultChatModel :: opencodeZenChatHintModels).map
              (fun m => { base with temperature := none, maxTokens := none, model := m })) := by
  unfold requestBodyVariants dedupKeepFirst
  rw [if_neg (by simp [hq])]
  simp only [List.foldl_append, List.foldl_map]
  rfl

/-- C9: the variant list starts with the literal requested payload; for a
non-quirky endpoint it is exactly that one payload; for the quirky
endpoint it is the first-occurrence de-duplication of: the base payload,
the payload without temperature, the payload additionally without the
max-token field, and that minimal payload with each fallback model id
substituted; and it never contains structural duplicates. -/
theorem C9_variant_list (apiUrl : String) (base : RequestBody) :
    (requestBodyVariants apiUrl base).head? = some base
      ∧ (isOpencodeZenUrl apiUrl = false → requestBodyVariants apiUrl base = [base])
      ∧ (isOpencodeZenUrl apiUrl = true →
          requestBodyVariants apiUrl base
            = dedupKeepFirst ([base, { base with temperature := none },
                  { base with temperature := none, maxTokens := none }]
                ++ (opencodeZenDefaultChatModel :: opencodeZenChatHintModels).map
                    (fun m => { base with temperature := none, maxTokens := none, model := m })))
      ∧ (requestBodyVariants apiUrl base).Nodup := by
  have hbase : addVariant [] base = [base] := by
    unfold addVariant
    simp
  have hplain : isOpencodeZenUrl apiUrl = false → requestBodyVariants apiUrl base = [base] := by
    intro hq
    unfold requestBodyVariants
    rw [if_pos (by simp [hq]), hbase]
  refine ⟨?_, hplain, requestBodyVariants_quirky apiUrl base, ?_⟩
  · cases hq : isOpencodeZenUrl apiUrl with
    | false => rw [hplain hq]; rfl
    | true =>
      rw [requestBodyVariants_quirky apiUrl base hq]
      simp only [List.cons_append]
      rw [dedupKeepFirst_head]
  · cases hq : isOpencodeZenUrl apiUrl with
    | false => rw [hplain hq]; exact List.nodup_singleton base
    | true => rw [requestBodyVariants_quirky apiUrl base hq]; exact dedupKeepFirst_nodup _

/-- Fixture: the quirky provider URL. -/
def exQuirkyUrl : String := "https://opencode.ai/zen/v1/chat/completions"

/-- Fixture: a base request body for the executor runs. -/
def exBase : RequestBody := buildBaseRequestBody "sys" "user" "big-pickle" 512

/-- Witness for C9 at the quirky endpoint and a concrete base payload. -/
theorem C9_variant_list_witness :
    (requestBodyVariants exQuirkyUrl exBase).head? = some exBase
      ∧ requestBodyVariants exQuirkyUrl exBase
          = dedupKeepFirst ([exBase, { exBase with temperature := none },
                { exBase with temperature := none, maxTokens := none }]
              ++ (opencodeZenDefaultChatModel :: opencodeZenChatHintModels).map
                  (fun m => { exBase with temperature := none, maxTokens := none, model := m }))
      ∧ (requestBodyVariants exQuirkyUrl exBase).Nodup :=
  ⟨(C9_variant_list exQuirkyUrl exBase).1,
   (C9_variant_list exQuirkyUrl exBase).2.2.1 (by decide),
   (C9_variant_list exQuirkyUrl exBase).2.2.2⟩

/-! ### Claim C4 -/

/-- A prefix of a list is a prefix of any right-extension. -/
theorem isPrefixL_append (p l l' : List Char) (h : isPrefixL p l = true) :
    isPrefixL p (l ++ l') = true := by
  induction p generalizing l with
  | nil => rfl
  | cons a ps ih =>
    cases l with
    | nil => simp [isPrefixL] at h
    | cons c cs =>
      simp only [isPrefixL, Bool.and_eq_true] at h
      simp only [List.cons_append, isPrefixL, Bool.and_eq_true]
      exact ⟨h.1, ih cs h.2⟩

/-- An infix of a list is an infix of any right-extension. -/
theorem hasInfix_append_left (pat l l' : List Char) (h : hasInfix pat l = true) :
    hasInfix pat (l ++ l') = true := by
  induction l with
  | nil =>
    cases pat with
    | nil => cases l' <;> simp [hasInfix, isPrefixL]
    | cons a ps => simp [hasInfix, isPrefixL] at h
  | cons c cs ih =>
    simp only [hasInfix, Bool.or_eq_true] at h
    simp only [List.cons_append, hasInfix, Bool.or_eq_true]
    cases h with
    | inl hp =>
      left
      have := isPrefixL_append pat (c :: cs) l' hp
      simpa using this
    | inr hrest => exact Or.inr (ih hrest)

/-- Lowercasing distributes over string append. -/
theorem lowerStr_append (a b : String) : lowerStr (a ++ b) = lowerStr a ++ lowerStr b := by
  unfold lowerStr
  apply congrArg String.mk
  rw [String.data_append]
  exact List.map_append Char.toLower a.data b.data

/-- Substring containment survives appending on the right. -/
theorem containsSubstring_append_left (a b pat : String)
    (h : containsSubstring a pat = true) : containsSubstring (a ++ b) pat = true := by
  unfold containsSubstring at h ⊢
  rw [String.data_append]
  exact hasInfix_append_left pat.data a.data b.data h

/-- A lowered concatenation whose left part contains the (lowercase)
pattern contains it as a whole. -/
theorem containsSubstring_lower_append (a b pat : String)
    (h : containsSubstring (lowerStr a) pat = true) :
    containsSubstring (lowerStr (a ++ b)) pat = true := by
  rw [lowerStr_append]
  exact containsSubstring_append_left _ _ _ h

/-- C4 counterexample: the caller-facing code is not passed through for
401/404 terminal errors.  The executor's own 401 message (produced here by
running the synchronous executor against a 401 response) and its 404
message both classify as 400 — because they mention `LLM_API_KEY` /
`LLM_API_URL` and therefore match the configuration-error check — not as
401/404. -/
theorem C4_counterexample :
    (syncExecutor
        { apiUrl := "https://api.example.com/v1/chat/completions", model := "m"
          timeoutSeconds := 30, retries := 1, retryBackoff := 0, maxTokens := 512, headers := [] }
        (buildBaseRequestBody "sys" "user" "m" 512)
        [SyncResp.http 401 "denied" SyncParse.notJson]).2
      = SyncOutcome.err (auth401Msg "denied")
    ∧ terminalErrorOutcome none (auth401Msg "denied")
        = CallerOutcome.errorOut (auth401Msg "denied") 400
    ∧ aiErrorStatus (auth401Msg "denied") = 400
    ∧ aiErrorStatus (notFound404Msg "https://api.example.com/v1/chat/completions") = 400
    ∧ (400 : ℕ) ≠ 401 ∧ (400 : ℕ) ≠ 404 := by
  refine ⟨?_, rfl, rfl, rfl, by decide, by decide⟩
  decide

/-- C4 (amended): with a cached result the outcome is a `stale` event
carrying the error; without one it is an `error` event whose status is
computed by `_ai_error_status`: 504 for timeout messages, 400 for
configuration/compatibility messages — including the 401 and 404 messages,
which mention `LLM_API_KEY`/`LLM_API_URL` and are therefore classified 400
rather than passed through — and 502 otherwise (whenever the message does
not itself mention a timeout). -/
theorem C4_error_status_classification :
    (∀ (analysis error : String),
        terminalErrorOutcome (some analysis) error = CallerOutcome.stale analysis error)
    ∧ (∀ error : String,
        terminalErrorOutcome none error = CallerOutcome.errorOut error (aiErrorStatus error))
    ∧ (∀ (t : ℤ) (attempt attempts : ℕ) (url model : String),
        aiErrorStatus (timeoutMsg t attempt attempts url model) = 504)
    ∧ (∀ (t : ℤ) (attempt attempts : ℕ) (url model : String),
        aiErrorStatus (timeoutMsg t attempt attempts url model ++ timeoutSuffix) = 504)
    ∧ (∀ text : String,
        containsSubstring (lowerStr (auth401Msg text)) "timed out" = false →
        aiErrorStatus (auth401Msg text) = 400)
    ∧ (∀ url : String,
        containsSubstring (lowerStr (notFound404Msg url)) "timed out" = false →
        aiErrorStatus (notFound404Msg url) = 400)
    ∧ (∀ msg : String,
        containsSubstring (lowerStr msg) "timed out" = false →
        containsSubstring (lowerStr msg) "not compatible with /chat/completions" = false →
        containsSubstring (lowerStr msg) "not available on opencode zen" = false →
        containsSubstring (lowerStr msg) "llm_" = false →
        aiErrorStatus msg = 502) := by
  have htimeout : ∀ (t : ℤ) (attempt attempts : ℕ) (url model : String),
      containsSubstring (lowerStr (timeoutMsg t attempt attempts url model)) "timed out" = true := by
    intro t attempt attempts url model
    unfold timeoutMsg
    exact containsSubstring_lower_append _ _ _
      (containsSubstring_lower_append _ _ _
        (containsSubstring_lower_append _ _ _
          (containsSubstring_lower_append _ _ _
            (containsSubstring_lower_append _ _ _
              (containsSubstring_lower_append _ _ _
                (containsSubstring_lower_append _ _ _
                  (containsSubstring_lower_append "Request timed out after " _ _ (by decide))))))))
  refine ⟨fun _ _ => rfl, fun _ => rfl, ?_, ?_, ?_, ?_, ?_⟩
  · intro t attempt attempts url model
    unfold aiErrorStatus
    rw [if_pos (htimeout t attempt attempts url model)]
  · intro t attempt attempts url model
    unfold aiErrorStatus
    rw [if_pos (containsSubstring_lower_append _ _ _ (htimeout t attempt attempts url model))]
  · intro text h
    have hc : containsSubstring (lowerStr (auth401Msg text)) "llm_" = true := by
      unfold auth401Msg
      exact containsSubstring_lower_append _ _ _ (by decide)
    unfold aiErrorStatus
    rw [if_neg (by simp [h]), if_pos (by simp [hc])]
  · intro url h
    have hc : containsSubstring (lowerStr (notFound404Msg url)) "llm_" = true := by
      unfold notFound404Msg
      exact containsSubstring_lower_append _ _ _ (by decide)
    unfold aiErrorStatus
    rw [if_neg (by simp [h]), if_pos (by simp [hc])]
  · intro msg h1 h2 h3 h4
    unfold aiErrorStatus
    rw [if_neg (by simp [h1]), if_neg (by simp [h2, h3, h4])]

/-- Witness for C4 at concrete messages. -/
theorem C4_error_status_classification_witness :
    (containsSubstring (lowerStr (auth401Msg "denied")) "timed out" = false
      ∧ aiErrorStatus (auth401Msg "denied") = 400)
    ∧ aiErrorStatus (timeoutMsg 30 0 2 "https://api.example.com" "m") = 504
    ∧ terminalErrorOutcome (some "old analysis") "boom"
        = CallerOutcome.stale "old analysis" "boom" :=
  ⟨⟨by decide, C4_error_status_classification.2.2.2.2.1 "denied" (by decide)⟩,
   C4_error_status_classification.2.2.1 30 0 2 "https://api.example.com" "m",
   C4_error_status_classification.1 "old analysis" "boom"⟩

/-! ### Claim C5 -/

/-- C5 counterexample: the failure-path TTL is not shorter than the
success-path TTL — `_fetch_current_patch` caches a failed fetch under the
same `6 * 3600` expiry as a success, and the failed lookup returns and
caches the empty value. -/
theorem C5_counterexample :
    (fetchCurrentPatch true ⟨0, ""⟩ 1 VersionsFetch.exn).2.1.expiresAt
        = (fetchCurrentPatch true ⟨0, ""⟩ 1 (VersionsFetch.http 200 (some ["15.1.1"]))).2.1.expiresAt
      ∧ ¬ ((fetchCurrentPatch true ⟨0, ""⟩ 1 VersionsFetch.exn).2.1.expiresAt
          < (fetchCurrentPatch true ⟨0, ""⟩ 1 (VersionsFetch.http 200 (some ["15.1.1"]))).2.1.expiresAt)
      ∧ (fetchCurrentPatch true ⟨0, ""⟩ 1 VersionsFetch.exn).1 = ""
      ∧ (fetchCurrentPatch true ⟨0, ""⟩ 1 (VersionsFetch.http 200 (some ["15.1.1"]))).1 = "15.1.1" :=
  ⟨rfl, lt_irrefl _, rfl, rfl⟩

/-- C5 (amended): a failed version fetch is cached — but under the same
6-hour TTL as a success, not a shorter failure-backoff TTL: an expired
cache plus a failing fetch stores the empty value with expiry
`now + 6*3600`; any lookup strictly inside that window returns the cached
empty value without fetching; the first lookup at or after the expiry
fetches again.  A successful fetch stores its value under the identical
TTL. -/
theorem C5_patch_failure_cached_same_ttl (cache : PatchCache) (now : ℚ)
    (h : ¬ cache.expiresAt > now) :
    fetchCurrentPatch true cache now VersionsFetch.exn
        = ("", { value := "", expiresAt := now + patchCacheTtl }, true)
      ∧ (∀ (v : String) (vs : List String),
          (fetchCurrentPatch true cache now (VersionsFetch.http 200 (some (v :: vs)))).2.1.expiresAt
            = now + patchCacheTtl)
      ∧ (∀ (now2 : ℚ) (f2 : VersionsFetch), now2 < now + patchCacheTtl →
          fetchCurrentPatch true { value := "", expiresAt := now + patchCacheTtl } now2 f2
            = ("", { value := "", expiresAt := now + patchCacheTtl }, false))
      ∧ (∀ (now3 : ℚ) (f3 : VersionsFetch), ¬ now3 < now + patchCacheTtl →
          (fetchCurrentPatch true { value := "", expiresAt := now + patchCacheTtl } now3 f3).2.2
            = true) := by
  refine ⟨?_, ?_, ?_, ?_⟩
  · unfold fetchCurrentPatch
    rw [if_neg (by simp), if_neg h]
  · intro v vs
    unfold fetchCurrentPatch
    rw [if_neg (by simp), if_neg h]
  · intro now2 f2 h2
    unfold fetchCurrentPatch
    rw [if_neg (by simp), if_pos h2]
  · intro now3 f3 h3
    unfold fetchCurrentPatch
    rw [if_neg (by simp), if_neg h3]

/-- Witness for C5 at a concrete expired cache. -/
theorem C5_patch_failure_cached_same_ttl_witness :
    fetchCurrentPatch true ⟨0, "old"⟩ 1 VersionsFetch.exn
        = ("", { value := "", expiresAt := 1 + patchCacheTtl }, true)
      ∧ (fetchCurrentPatch true { value := "", expiresAt := 1 + patchCacheTtl } 2 VersionsFetch.exn
          = ("", { value := "", expiresAt := 1 + patchCacheTtl }, false)) := by
  have h := C5_patch_failure_cached_same_ttl ⟨0, "old"⟩ 1 (by norm_num)
  exact ⟨h.1, h.2.2.1 2 VersionsFetch.exn (by norm_num [patchCacheTtl])⟩

/-! ### Claim C1 -/

/-- The action trace of retrying one variant `m + 1` times against a
persistent retryable failure: a send, then (per remaining attempt) the
backoff sleep `backoff * 2^attempt` and the re-send. -/
def expectedRetryActs (st : ProviderSettings) (v : RequestBody) : ℕ → List Action
  | 0 => [Action.send v]
  | m + 1 => Action.send v ::
      ((if st.retryBackoff > 0
        then [Action.sleep (st.retryBackoff * 2 ^ (st.retries.toNat - (m + 1)))] else [])
        ++ expectedRetryActs st v m)

/-- Fixture: resolved settings for the quirky endpoint (backoff 0 keeps
concrete traces free of rational arithmetic). -/
def exQuirkySettings : ProviderSettings :=
  { apiUrl := exQuirkyUrl, model := "big-pickle", timeoutSeconds := 30, retries := 1
    retryBackoff := 0, maxTokens := 512, headers := [] }

/-- C1 counterexample: a non-signature 5xx is retried up to the configured
count and then fails terminally — the executor never advances to the next
payload variant, contradicting the claim's "before advancing".  With
`retries = 1` and two plain-500 responses, the trace sends only the base
payload twice, the temperature-stripped second variant is never sent, and
the outcome is the terminal 5xx error. -/
theorem C1_counterexample :
    (syncExecutor exQuirkySettings exBase
        [SyncResp.http 500 "boom" SyncParse.notJson, SyncResp.http 500 "boom" SyncParse.notJson])
      = ([Action.send exBase, Action.send exBase], SyncOutcome.err (statusMsg 500 "boom"))
    ∧ Action.send { exBase with temperature := none } ∉
        (syncExecutor exQuirkySettings exBase
          [SyncResp.http 500 "boom" SyncParse.notJson,
           SyncResp.http 500 "boom" SyncParse.notJson]).1 := by
  constructor
  · decide
  · decide

/-- C1 (amended): given a 5xx whose body carries the provider-crash
signature and a further variant remaining, the executor abandons the
current variant immediately — no sleep, no retry — and continues with the
next variant (carrying the 5xx as `last_error`); given a 5xx without the
signature, it retries the same variant, sleeping `backoff * 2^attempt`
before each retry, and once the budget is exhausted it returns the 5xx
error terminally instead of advancing. -/
theorem C1_sync_5xx_variant_policy :
    (∀ (st : ProviderSettings) (v : RequestBody) (rest : List RequestBody) (lastError : String)
        (status : ℕ) (text : String) (p : SyncParse) (rs : List SyncResp),
        500 ≤ status →
        isPromptTokens500Error st.apiUrl status text = true →
        rest ≠ [] →
        syncVariantLoop st (v :: rest) lastError (SyncResp.http status text p :: rs)
          = (Action.send v :: (syncVariantLoop st rest (statusMsg status text) rs).1,
             (syncVariantLoop st rest (statusMsg status text) rs).2))
    ∧ (∀ (st : ProviderSettings) (v : RequestBody) (isLast : Bool) (lastError : String)
        (status : ℕ) (text : String) (p : SyncParse) (m : ℕ) (rs : List SyncResp),
        500 ≤ status →
        isPromptTokens500Error st.apiUrl status text = false →
        syncAttemptLoop st v isLast lastError m
            (List.replicate (m + 1) (SyncResp.http status text p) ++ rs)
          = (expectedRetryActs st v m, SyncExit.ret (SyncOutcome.err (statusMsg status text)), rs)) := by
  constructor
  · intro st v rest lastError status text p rs h500 hsig hrest
    have h401 : ¬ status = 401 := by omega
    have h404 : ¬ status = 404 := by omega
    have hlast : rest.isEmpty = false := by
      cases rest with
      | nil => exact absurd rfl hrest
      | cons b bs => rfl
    have hstep : syncAttemptLoop st v rest.isEmpty lastError st.retries.toNat
        (SyncResp.http status text p :: rs)
        = ([Action.send v], SyncExit.nextVariant (statusMsg status text), rs) := by
      rw [syncAttemptLoop]
      rw [if_neg h401, if_neg h404, if_pos h500, hsig, hlast]
      rfl
    rcases hveq : syncVariantLoop st rest (statusMsg status text) rs with ⟨acts2, o, rs2⟩
    rw [syncVariantLoop, hstep]
    dsimp only
    rw [hveq]
    rfl
  · intro st v isLast lastError status text p m rs h500 hsig
    have h401 : ¬ status = 401 := by omega
    have h404 : ¬ status = 404 := by omega
    induction m generalizing lastError rs with
    | zero =>
      simp only [List.replicate_succ, List.replicate_zero, List.cons_append, List.nil_append]
      rw [syncAttemptLoop]
      rw [if_neg h401, if_neg h404, if_pos h500, hsig]
      rfl
    | succ m ih =>
      simp only [List.replicate_succ, List.cons_append]
      rw [syncAttemptLoop]
      rw [if_neg h401, if_neg h404, if_pos h500, hsig]
      dsimp only
      have hshape : SyncResp.http status text p
            :: (List.replicate m (SyncResp.http status text p) ++ rs)
          = List.replicate (m + 1) (SyncResp.http status text p) ++ rs := by
        simp [List.replicate_succ]
      rw [hshape, ih]
      rfl

/-- Witness for C1: a concrete signature 5xx at the first of two variants
advances immediately. -/
theorem C1_sync_5xx_variant_policy_witness :
    syncVariantLoop exQuirkySettings [exBase, { exBase with temperature := none }] ""
        [SyncResp.http 500 "x prompt_tokens y" SyncParse.notJson]
      = (Action.send exBase :: (syncVariantLoop exQuirkySettings [{ exBase with temperature := none }]
            (statusMsg 500 "x prompt_tokens y") []).1,
         (syncVariantLoop exQuirkySettings [{ exBase with temperature := none }]
            (statusMsg 500 "x prompt_tokens y") []).2) :=
  C1_sync_5xx_variant_policy.1 exQuirkySettings exBase [{ exBase with temperature := none }] ""
    500 "x prompt_tokens y" SyncParse.notJson [] (by decide) (by decide) (by decide)

/-! ### Claim C2 -/

/-- Fixture: a delivered stream line whose frame carries one delta. -/
def exStreamChunkLine (delta : String) : StreamLine :=
  { raw := "data: x"
    frame := some { choices := [{ deltaContent := CoerceVal.str delta
                                  messageContent := CoerceVal.null
                                  messageReasoning := CoerceVal.null
                                  textField := CoerceVal.null }] } }

/-- Fixture: a stream that emits a chunk, dies mid-stream, and succeeds on
the re-issued request. -/
def exStreamRs : List StreamResp :=
  [StreamResp.http 200 "" [exStreamChunkLine "Hi"] (StreamEnd.raiseReqError "reset"),
   StreamResp.http 200 "" [exStreamChunkLine "Hello", { raw := "data: [DONE]", frame := none }]
     StreamEnd.closed]

/-- C2 counterexample: after the chunk `"Hi"` has been emitted, a
mid-stream transport error makes the executor re-issue the request (same
variant) — a send occurs after a chunk event, so the claimed
never-re-issue property is false. -/
theorem C2_counterexample :
    streamExecutor exQuirkySettings exBase exStreamRs
      = [StreamStep.send exBase, StreamStep.emit (StreamEv.chunk "Hi"),
         StreamStep.send exBase, StreamStep.emit (StreamEv.chunk "Hello"),
         StreamStep.emit (StreamEv.done "Hello")]
    ∧ noReissueAfterChunk (streamExecutor exQuirkySettings exBase exStreamRs) = false := by
  constructor
  · decide
  · decide

/-- C2 (amended): emitted chunks do not disable the retry machinery.  A
mid-stream transport error (request exception or timeout) after any number
of emitted chunks is retried exactly like a pre-stream one: while attempt
budget remains the executor sleeps `backoff * 2^attempt` and re-issues the
same variant (possibly emitting further chunks); once the budget is
exhausted the stream ends with an `error` event.  (A 5xx can never follow
a chunk within one attempt, since the status check precedes streaming.) -/
theorem C2_stream_retry_after_chunks :
    (∀ (st : ProviderSettings) (v : RequestBody) (isLast : Bool) (lastError : String)
        (m : ℕ) (text e : String) (lines : List StreamLine) (rs : List StreamResp),
        (collectStream lines).2 = false →
        streamAttemptLoop st v isLast lastError (m + 1)
            (StreamResp.http 200 text lines (StreamEnd.raiseReqError e) :: rs)
          = (StreamStep.send v
              :: ((collectStream lines).1.map (fun d => StreamStep.emit (StreamEv.chunk d))
                ++ ((if st.retryBackoff > 0
                      then [StreamStep.sleep (st.retryBackoff * 2 ^ (st.retries.toNat - (m + 1)))]
                      else [])
                  ++ (streamAttemptLoop st v isLast (requestFailedMsg st.apiUrl e) m rs).1)),
             (streamAttemptLoop st v isLast (requestFailedMsg st.apiUrl e) m rs).2))
    ∧ (∀ (st : ProviderSettings) (v : RequestBody) (isLast : Bool) (lastError : String)
        (m : ℕ) (text : String) (lines : List StreamLine) (rs : List StreamResp),
        (collectStream lines).2 = false →
        streamAttemptLoop st v isLast lastError (m + 1)
            (StreamResp.http 200 text lines StreamEnd.raiseTimeout :: rs)
          = (StreamStep.send v
              :: ((collectStream lines).1.map (fun d => StreamStep.emit (StreamEv.chunk d))
                ++ ((if st.retryBackoff > 0
                      then [StreamStep.sleep (st.retryBackoff * 2 ^ (st.retries.toNat - (m + 1)))]
                      else [])
                  ++ (streamAttemptLoop st v isLast
                      (timeoutMsg st.timeoutSeconds (st.retries.toNat - (m + 1))
                        (st.retries.toNat + 1) st.apiUrl v.model) m rs).1)),
             (streamAttemptLoop st v isLast
                (timeoutMsg st.timeoutSeconds (st.retries.toNat - (m + 1))
                  (st.retries.toNat + 1) st.apiUrl v.model) m rs).2))
    ∧ (∀ (st : ProviderSettings) (v : RequestBody) (isLast : Bool) (lastError : String)
        (text e : String) (lines : List StreamLine) (rs : List StreamResp),
        (collectStream lines).2 = false →
        streamAttemptLoop st v isLast lastError 0
            (StreamResp.http 200 text lines (StreamEnd.raiseReqError e) :: rs)
          = (StreamStep.send v
              :: ((collectStream lines).1.map (fun d => StreamStep.emit (StreamEv.chunk d))
                ++ [StreamStep.emit (StreamEv.error (requestFailedMsg st.apiUrl e))]),
             StreamExit.halt, rs))
    ∧ (∀ (st : ProviderSettings) (v : RequestBody) (isLast : Bool) (lastError : String)
        (text : String) (lines : List StreamLine) (rs : List StreamResp),
        (collectStream lines).2 = false →
        streamAttemptLoop st v isLast lastError 0
            (StreamResp.http 200 text lines StreamEnd.raiseTimeout :: rs)
          = (StreamStep.send v
              :: ((collectStream lines).1.map (fun d => StreamStep.emit (StreamEv.chunk d))
                ++ [StreamStep.emit (StreamEv.error
                    (timeoutMsg st.timeoutSeconds st.retries.toNat
                      (st.retries.toNat + 1) st.apiUrl v.model ++ timeoutSuffix))]),
             StreamExit.halt, rs)) := by
  refine ⟨?_, ?_, ?_, ?_⟩
  · intro st v isLast lastError m text e lines rs h
    rcases hc : collectStream lines with ⟨ds, sd⟩
    rw [hc] at h
    subst h
    rcases hrec : streamAttemptLoop st v isLast (requestFailedMsg st.apiUrl e) m rs
      with ⟨steps, ex, rs2⟩
    rw [streamAttemptLoop]
    rw [if_neg (by decide : ¬ (200 : ℕ) = 401), if_neg (by decide : ¬ (200 : ℕ) = 404),
      if_neg (by decide : ¬ (500 ≤ (200 : ℕ))), if_neg (by decide : ¬ (200 : ℕ) ≠ 200)]
    dsimp only
    rw [hc]
    dsimp only
    rw [hrec]
    simp [List.append_assoc]
  · intro st v isLast lastError m text lines rs h
    rcases hc : collectStream lines with ⟨ds, sd⟩
    rw [hc] at h
    subst h
    rcases hrec : streamAttemptLoop st v isLast
        (timeoutMsg st.timeoutSeconds (st.retries.toNat - (m + 1))
          (st.retries.toNat + 1) st.apiUrl v.model) m rs
      with ⟨steps, ex, rs2⟩
    rw [streamAttemptLoop]
    rw [if_neg (by decide : ¬ (200 : ℕ) = 401), if_neg (by decide : ¬ (200 : ℕ) = 404),
      if_neg (by decide : ¬ (500 ≤ (200 : ℕ))), if_neg (by decide : ¬ (200 : ℕ) ≠ 200)]
    dsimp only
    rw [hc]
    dsimp only
    rw [hrec]
    simp [List.append_assoc]
  · intro st v isLast lastError text e lines rs h
    rcases hc : collectStream lines with ⟨ds, sd⟩
    rw [hc] at h
    subst h
    rw [streamAttemptLoop]
    rw [if_neg (by decide : ¬ (200 : ℕ) = 401), if_neg (by decide : ¬ (200 : ℕ) = 404),
      if_neg (by decide : ¬ (500 ≤ (200 : ℕ))), if_neg (by decide : ¬ (200 : ℕ) ≠ 200)]
    dsimp only
    rw [hc]
  · intro st v isLast lastError text lines rs h
    rcases hc : collectStream lines with ⟨ds, sd⟩
    rw [hc] at h
    subst h
    rw [streamAttemptLoop]
    rw [if_neg (by decide : ¬ (200 : ℕ) = 401), if_neg (by decide : ¬ (200 : ℕ) = 404),
      if_neg (by decide : ¬ (500 ≤ (200 : ℕ))), if_neg (by decide : ¬ (200 : ℕ) ≠ 200)]
    dsimp only
    rw [hc]
    rfl

/-- Witness for C2: a concrete mid-stream transport error after one chunk
with one retry remaining. -/
theorem C2_stream_retry_after_chunks_witness :
    streamAttemptLoop exQuirkySettings exBase false "" 1
        [StreamResp.http 200 "" [exStreamChunkLine "Hi"] (StreamEnd.raiseReqError "reset")]
      = (StreamStep.send exBase
          :: ((collectStream [exStreamChunkLine "Hi"]).1.map
                (fun d => StreamStep.emit (StreamEv.chunk d))
            ++ ((if exQuirkySettings.retryBackoff > 0
                  then [StreamStep.sleep (exQuirkySettings.retryBackoff
                    * 2 ^ (exQuirkySettings.retries.toNat - 2))]
                  else [])
              ++ (streamAttemptLoop exQuirkySettings exBase false
                  (requestFailedMsg exQuirkySettings.apiUrl "reset") 0 []).1)),
         (streamAttemptLoop exQuirkySettings exBase false
            (requestFailedMsg exQuirkySettings.apiUrl "reset") 0 []).2) :=
  C2_stream_retry_after_chunks.1 exQuirkySettings exBase false "" 1 "" "reset"
    [exStreamChunkLine "Hi"] [] (by decide)

/-! ### Claim C3 -/

/-- C3 counterexample: a 200 stream delivering the single recognized delta
`"<b>"` emits a chunk (fragments were accumulated), yet the terminal event
is an `error`, not a `done` — the normalized concatenation strips the tag
and leaves the empty string. -/
theorem C3_counterexample :
    streamExecutor exQuirkySettings exBase
        [StreamResp.http 200 "" [exStreamChunkLine "<b>"] StreamEnd.closed]
      = [StreamStep.send exBase, StreamStep.emit (StreamEv.chunk "<b>"),
         StreamStep.emit (StreamEv.error
           (streamMissingContentMsg exQuirkySettings.apiUrl exBase.model))] := by
  decide

/-- C3 (amended): whenever a 200 stream ends normally — a `[DONE]` sentinel
or plain closure, with or without the sentinel — the executor emits the
relayed chunks followed by exactly one terminal event: `done` with
`_soft_text_clean` of the concatenated deltas when that normalization is
non-empty, and the missing-content `error` otherwise (even if non-empty
fragments were accumulated). -/
theorem C3_stream_terminal_event :
    ∀ (st : ProviderSettings) (v : RequestBody) (isLast : Bool) (lastError : String)
      (m : ℕ) (text : String) (lines : List StreamLine) (ending : StreamEnd)
      (rs : List StreamResp),
      ((collectStream lines).2 = true ∨ ending = StreamEnd.closed) →
      streamAttemptLoop st v isLast lastError m (StreamResp.http 200 text lines ending :: rs)
        = (StreamStep.send v
            :: ((collectStream lines).1.map (fun d => StreamStep.emit (StreamEv.chunk d))
              ++ [StreamStep.emit
                  (if softTextClean (String.join (collectStream lines).1) = ""
                   then StreamEv.error (streamMissingContentMsg st.apiUrl v.model)
                   else StreamEv.done (softTextClean (String.join (collectStream lines).1)))]),
           StreamExit.halt, rs) := by
  intro st v isLast lastError m text lines ending rs hor
  rcases hc : collectStream lines with ⟨ds, sd⟩
  rw [hc] at hor
  rw [streamAttemptLoop]
  rw [if_neg (by decide : ¬ (200 : ℕ) = 401), if_neg (by decide : ¬ (200 : ℕ) = 404),
    if_neg (by decide : ¬ (500 ≤ (200 : ℕ))), if_neg (by decide : ¬ (200 : ℕ) ≠ 200)]
  dsimp only
  rw [hc]
  dsimp only
  rcases hor with hsd | hend
  · subst hsd
    cases ending <;> (dsimp only; split_ifs <;> rfl)
  · subst hend
    cases sd <;> (dsimp only; split_ifs <;> rfl)

/-- Witness for C3: a stream closing without `[DONE]` but with accumulated
content emits `done` with the accumulated text. -/
theorem C3_stream_terminal_event_witness :
    streamAttemptLoop exQuirkySettings exBase false "" 1
        [StreamResp.http 200 "" [exStreamChunkLine "Hello"] StreamEnd.closed]
      = (StreamStep.send exBase
          :: ((collectStream [exStreamChunkLine "Hello"]).1.map
                (fun d => StreamStep.emit (StreamEv.chunk d))
            ++ [StreamStep.emit
                (if softTextClean (String.join (collectStream [exStreamChunkLine "Hello"]).1) = ""
                 then StreamEv.error
                   (streamMissingContentMsg exQuirkySettings.apiUrl exBase.model)
                 else StreamEv.done
                   (softTextClean (String.join (collectStream [exStreamChunkLine "Hello"]).1)))]),
         StreamExit.halt, []) :=
  C3_stream_terminal_event exQuirkySettings exBase false "" 1 ""
    [exStreamChunkLine "Hello"] StreamEnd.closed [] (Or.inr rfl)

end LolAnalyzer
